import Mathlib

/-!
Verification of the message-routing and session-coordination layer of the
`yangin_risk_drone` repository (a Django backend with a unified RabbitMQ
consumer, a scan-session registry and a YOLO-based fire/smoke detection
dispatcher).

The embedding is shallow and executable:

* relational rows (`Drone`, `ScanSession`, `LogEntry` from `api/models.py`)
  become Lean structures held in lists inside a `DB` record;
* Django query-set operations (`filter(...).first()`, `objects.get`,
  `objects.create`, `save(update_fields=[...])`) become the corresponding
  list operations, with `update_fields` modelled as writing only the listed
  fields onto the matching row;
* wall-clock timestamps are an abstract `Nat` tick passed into every
  operation that calls `timezone.now()` / `datetime.now()`;
* Python `float` confidences and bounding boxes are modelled as `Rat`
  (only carried around, never computed with); the `"{x:.2%}"` rendering is
  abstracted by `pct`;
* broker publishes are recorded as values in an `Effects` record instead of
  being sent; GUI publishes keep the routing key, the persistence flag and
  the pika delivery mode computed by the source;
* the YOLO model invocation inside `FireSmokeDetector.detect` (an opaque
  external function) is a `YoloOutcome` parameter: a list of raw boxes on
  success, or the exception / model-not-loaded / bad-frame paths that the
  source catches; cv2 drawing plus JPEG/base64 encoding of the annotated
  frame is abstracted by `annotatedOf`;
* malformed message bodies (a `json.loads` failure in a handler) are the
  `none` case of the handler's `Option` message argument.
-/

namespace DroneCommand

/-- Log entry type tags (`api/models.py`, class `LogType`). -/
inductive LogType where
  | INFO
  | WARNING
  | ALERT
  | ACTION
  | FIRE_DETECTED
  | SMOKE_DETECTED
deriving DecidableEq

/-- `DroneStatus.OFFLINE` (`api/models.py`). -/
def DroneStatus.OFFLINE : String := "Çevrimdışı"

/-- `DroneStatus.HOVERING` (`api/models.py`). -/
def DroneStatus.HOVERING : String := "Havada Sabit"

/-- `DroneStatus.SCANNING` (`api/models.py`). -/
def DroneStatus.SCANNING : String := "Taramada"

/-- A `Drone` row (`api/models.py`).  `gui_token` is the UUID as a string;
`registered_at` / `updated_at` are the `auto_now_add` / `auto_now`
timestamps. -/
structure Drone where
  drone_id : String
  name : String
  model : String
  gui_token : String
  telemetry_topic : String := ""
  command_topic : String := ""
  video_topic : String := ""
  alert_topic : String := ""
  last_status : String := DroneStatus.OFFLINE
  last_seen : Option Nat := none
  is_active : Bool := true
  registered_at : Nat := 0
  updated_at : Nat := 0
deriving DecidableEq

/-- A `ScanSession` row (`api/models.py`).  `droneId` is the foreign key to
`Drone.drone_id`; counters are `IntegerField`s. -/
structure ScanSession where
  session_id : String
  droneId : String
  is_active : Bool := true
  started_at : Nat := 0
  ended_at : Option Nat := none
  total_frames_processed : Int := 0
  fire_detections : Int := 0
  smoke_detections : Int := 0
deriving DecidableEq

/-- A `LogEntry` row (`api/models.py`); `id` is the auto primary key. -/
structure LogEntry where
  id : Nat := 0
  source : String
  message : String
  log_type : LogType := LogType.INFO
  droneId : Option String := none
  confidence : Option Rat := none
  detection_class : String := ""
  bbox : Option (List Rat) := none
  timestamp : Nat := 0
deriving DecidableEq

/-- The relational store: the three tables plus the auto-increment counter
for `LogEntry.id`. -/
structure DB where
  drones : List Drone := []
  sessions : List ScanSession := []
  logs : List LogEntry := []
  next_log_id : Nat := 0
deriving DecidableEq

/-- `LogEntry.objects.create(...)`: assign the next primary key, append the
row, and return the created row's id. -/
def DB.createLog (db : DB) (e : LogEntry) : DB × Nat :=
  ({ db with
      logs := db.logs ++ [{ e with id := db.next_log_id }],
      next_log_id := db.next_log_id + 1 },
   db.next_log_id)

/-- Abstraction of Python's `f"{x:.2%}"` rendering of a confidence value:
an injective map from the carried rational into the message text. -/
def pct (c : Rat) : String := toString c

/-- One detection dict produced by `FireSmokeDetector.detect`
(`detection/detector.py`): class name, confidence, `xyxy` box, timestamp. -/
structure Detection where
  cls : String
  confidence : Rat
  bbox : List Rat := []
  timestamp : Nat := 0
deriving DecidableEq

/-- The payload dict literals the consumer publishes to the GUI exchange
(`rabbitmq_service/consumer.py`), one constructor per literal.  The opaque
telemetry `data` dict is reduced to the one key the router reads
(`data.get('status')`). -/
inductive GuiPayload where
  | TELEMETRY (timestamp : Nat) (drone_id : String) (dataStatus : Option String)
  | VIDEO_FRAME (timestamp : Nat) (drone_id : String) (frame_number : Nat)
      (data : String) (scanning : Bool)
  | DETECTION (timestamp : Nat) (drone_id : String) (frame_number : Nat)
      (detections : List Detection) (has_fire : Bool) (has_smoke : Bool)
  | ALERT (timestamp : Nat) (drone_id : String) (message : String)
  | DETECTION_ALERT (timestamp : Nat) (drone_id : String)
      (detection_class : String) (confidence : Rat) (bbox : Option (List Rat))
      (log_id : Nat)
  | COMMAND_ACK (timestamp : Nat) (drone_id : String) (command : Option String)
      (status : String)
  | SCAN_STARTED (timestamp : Nat) (drone_id : String) (session_id : String)
  | SCAN_STOPPED (timestamp : Nat) (drone_id : String) (session_id : String)
      (total_frames : Int) (fire_detections : Int) (smoke_detections : Int)
deriving DecidableEq

/-- The `scanning` flag of a published payload, when it is a video frame. -/
def GuiPayload.scanningFlag : GuiPayload → Option Bool
  | GuiPayload.VIDEO_FRAME _ _ _ _ s => some s
  | _ => none

/-- One `basic_publish` on the GUI exchange as recorded by the model. -/
structure GuiPublish where
  exchange : String
  message_type : String
  routing_key : String
  persistent : Bool
  delivery_mode : Nat
  payload : GuiPayload
deriving DecidableEq

/-- Default exchange names (`dronecommand/settings.py`, `RABBITMQ_CONFIG`). -/
def EXCHANGE_GUI : String := "drone.gui"

/-- Default command exchange name (`dronecommand/settings.py`). -/
def EXCHANGE_COMMANDS : String := "drone.commands"

/-- `UnifiedConsumer._publish_gui` (`rabbitmq_service/consumer.py` lines
468-484): routing key `gui.<drone_id>.<message_type>`, persistent for every
message type except `'video'`, pika delivery mode 2 when persistent else 1. -/
def publishGui (drone_id message_type : String) (payload : GuiPayload) :
    GuiPublish :=
  let routing_key := "gui." ++ drone_id ++ "." ++ message_type
  let persistent := !(["video"].contains message_type)
  { exchange := EXCHANGE_GUI
    message_type := message_type
    routing_key := routing_key
    persistent := persistent
    delivery_mode := if persistent then 2 else 1
    payload := payload }

/-- One `RabbitMQManager.send_command` publish to the commands exchange
(`rabbitmq_service/manager.py` lines 160-167): payload is
`{'timestamp', 'drone_id', **command_data}`, routing key is the drone's
command topic, persistent. -/
structure CommandPublish where
  exchange : String
  routing_key : String
  timestamp : Nat
  drone_id : String
  command : Option String := none
  session_id : Option String := none
  params : Option (List (String × String)) := none
  persistent : Bool := true
deriving DecidableEq

/-- The `command_data` dict passed to `send_command` by the consumer. -/
structure CommandData where
  command : Option String := none
  session_id : Option String := none
  params : Option (List (String × String)) := none
deriving DecidableEq

/-- `RabbitMQManager.send_command` (`rabbitmq_service/manager.py`). -/
def sendCommand (drone : Drone) (cd : CommandData) (now : Nat) :
    CommandPublish :=
  { exchange := EXCHANGE_COMMANDS
    routing_key := drone.command_topic
    timestamp := now
    drone_id := drone.drone_id
    command := cd.command
    session_id := cd.session_id
    params := cd.params }

/-- Broker side effects accumulated by one handler invocation. -/
structure Effects where
  gui : List GuiPublish := []
  commands : List CommandPublish := []
deriving DecidableEq

/-- Message acknowledgment outcome of a handler (`basic_ack` versus
`basic_nack(requeue=False)`). -/
inductive Ack where
  | ack
  | nackNoRequeue
deriving DecidableEq

/-- `Drone.save` (`api/models.py` lines 76-83): when `telemetry_topic` is
blank, derive the four drone-facing topics from the drone identifier as
`drone.<id>.<kind>`; then the ordinary save runs, and the `auto_now`
field `updated_at` is refreshed. -/
def Drone.save (d : Drone) (now : Nat) : Drone :=
  let d :=
    if d.telemetry_topic = "" then
      let base := "drone." ++ d.drone_id
      { d with
          telemetry_topic := base ++ ".telemetry"
          command_topic := base ++ ".commands"
          video_topic := base ++ ".video"
          alert_topic := base ++ ".alerts" }
    else d
  { d with updated_at := now }

/-- `Drone.objects.filter(drone_id=x).first()` / `objects.get(drone_id=x)`
(`drone_id` is unique, so the first match is the row). -/
def DB.findDrone (db : DB) (drone_id : String) : Option Drone :=
  db.drones.find? (fun d => d.drone_id == drone_id)

/-- `ScanSession.objects.filter(drone=drone, is_active=True).first()`. -/
def DB.activeSessionFor (db : DB) (drone_id : String) : Option ScanSession :=
  db.sessions.find? (fun s => s.droneId == drone_id && s.is_active)

/-- `ScanSession.objects.get(session_id=sid)` (`session_id` is unique). -/
def DB.findSession (db : DB) (sid : String) : Option ScanSession :=
  db.sessions.find? (fun s => s.session_id == sid)

/-- `DroneService.register` (`api/services/drone_service.py` lines 36-53):
if a row with the id exists, set `is_active`/`last_seen` and save with
`update_fields=['is_active', 'last_seen', 'updated_at']` (only those three
columns are written back), returning `created=False`; otherwise create a new
row (the save hook fills the topics) and return `created=True`.
`freshToken` stands for the `uuid.uuid4()` default of `gui_token`. -/
def DroneService.register (db : DB) (drone_id name model : String)
    (now : Nat) (freshToken : String) : DB × Drone × Bool :=
  match db.findDrone drone_id with
  | some existing =>
      let e := ({ existing with is_active := true, last_seen := some now
                  : Drone }).save now
      let db := { db with
        drones := db.drones.map (fun d =>
          if d.drone_id == drone_id then
            { d with is_active := e.is_active, last_seen := e.last_seen,
                     updated_at := e.updated_at }
          else d) }
      (db, e, false)
  | none =>
      let drone := ({ drone_id := drone_id, name := name, model := model,
                      gui_token := freshToken, registered_at := now
                      : Drone }).save now
      ({ db with drones := db.drones ++ [drone] }, drone, true)

/-- `DroneService.update_status` (`api/services/drone_service.py` lines
65-70): set `last_status` and `last_seen` on the drone and save with
`update_fields=['last_status', 'last_seen', 'updated_at']`. -/
def DroneService.update_status (db : DB) (drone_id new_status : String)
    (now : Nat) : DB :=
  { db with
    drones := db.drones.map (fun d =>
      if d.drone_id == drone_id then
        { d with last_status := new_status, last_seen := some now,
                 updated_at := now }
      else d) }

/-- `LogService.log_drone_event` (`api/services/log_service.py` lines
69-77), which delegates to `LogService.create`. -/
def LogService.log_drone_event (db : DB) (drone : Drone) (message : String)
    (log_type : LogType) (now : Nat) : DB :=
  (db.createLog { source := drone.name, message := message,
                  log_type := log_type, droneId := some drone.drone_id,
                  timestamp := now }).1

/-- `ScanService.start` (`api/services/scan_service.py` lines 27-51):
look the drone up (raising `DroneNotFound`, the `none` result, if absent),
close every active session of the drone (`is_active=False`,
`ended_at=now`), create a fresh session row, set the drone's cached status
to scanning, and write an `ACTION` audit log entry.  `newId` stands for the
`uuid.uuid4()` default of `session_id`. -/
def ScanService.start (db : DB) (drone_id : String) (now : Nat)
    (newId : String) : Option (DB × ScanSession) :=
  match db.findDrone drone_id with
  | none => none
  | some drone =>
      let db := { db with
        sessions := db.sessions.map (fun s : ScanSession =>
          if s.droneId == drone_id && s.is_active then
            { s with is_active := false, ended_at := some now }
          else s) }
      let session : ScanSession :=
        { session_id := newId, droneId := drone_id, started_at := now }
      let db := { db with sessions := db.sessions ++ [session] }
      let db := DroneService.update_status db drone_id DroneStatus.SCANNING now
      let db := LogService.log_drone_event db drone
        ("YOLO taraması başlatıldı — Session: " ++ newId) LogType.ACTION now
      some (db, session)

/-- `ScanService.stop` (`api/services/scan_service.py` lines 53-68): close
the given session (save with `update_fields=['is_active', 'ended_at']`),
revert the drone's cached status to hovering, and write an `INFO` summary
log entry.  Returns the mutated in-memory session, as the source does. -/
def ScanService.stop (db : DB) (session : ScanSession) (now : Nat) :
    DB × ScanSession :=
  let s := { session with is_active := false, ended_at := some now }
  let db := { db with
    sessions := db.sessions.map (fun t =>
      if t.session_id == session.session_id then
        { t with is_active := s.is_active, ended_at := s.ended_at }
      else t) }
  let db := DroneService.update_status db session.droneId
    DroneStatus.HOVERING now
  let db :=
    match db.findDrone session.droneId with
    | some drone =>
        LogService.log_drone_event db drone
          ("Tarama durduruldu — " ++ toString s.fire_detections ++
            " yangın, " ++ toString s.smoke_detections ++ " duman")
          LogType.INFO now
    | none => db
  (db, s)

/-- `ScanService.record_frame` (`api/services/scan_service.py` lines
70-84): increment the frame counter, conditionally the fire/smoke
counters, and save — `update_fields` holds exactly the incremented
columns, so only those are written back to the row. -/
def ScanService.record_frame (db : DB) (session : ScanSession)
    (has_fire has_smoke : Bool) : DB × ScanSession :=
  let s := { session with
    total_frames_processed := session.total_frames_processed + 1,
    fire_detections :=
      session.fire_detections + (if has_fire then 1 else 0),
    smoke_detections :=
      session.smoke_detections + (if has_smoke then 1 else 0) }
  let db := { db with
    sessions := db.sessions.map (fun t =>
      if t.session_id == session.session_id then
        { t with
            total_frames_processed := s.total_frames_processed,
            fire_detections :=
              if has_fire then s.fire_detections else t.fire_detections,
            smoke_detections :=
              if has_smoke then s.smoke_detections else t.smoke_detections }
      else t) }
  (db, s)

/-- Python's `str.lower()` as used on YOLO class names, character-wise.
(`String.toLower`'s `mapAux` does not reduce in the kernel; the
character-list form is the same function and does.) -/
def lowerStr (s : String) : String := String.mk (s.data.map Char.toLower)

/-- Python's `str.upper()` as used in detection log messages. -/
def upperStr (s : String) : String := String.mk (s.data.map Char.toUpper)

/-- The class-name aliases that `FireSmokeDetector.detect` maps to `fire`. -/
def fireAliases : List String := ["fire", "flame", "yangın", "alev"]

/-- The class-name aliases that `FireSmokeDetector.detect` maps to `smoke`. -/
def smokeAliases : List String := ["smoke", "duman"]

/-- One raw box as produced by the YOLO model inside
`FireSmokeDetector.detect`: original class name, confidence, `xyxy` box. -/
structure RawBox where
  class_name : String
  conf : Rat
  xyxy : List Rat := []
deriving DecidableEq

/-- Outcome of the opaque YOLO invocation inside `FireSmokeDetector.detect`
(`detection/detector.py` lines 101-169): the model may not load, the frame
may fail to decode, inference may raise (the source catches the exception
and returns an error dict), or it returns a list of raw boxes. -/
inductive YoloOutcome where
  | modelNotLoaded
  | invalidFrame
  | raised (msg : String)
  | infer (boxes : List RawBox)
deriving DecidableEq

/-- The result dict of `FireSmokeDetector.detect`.  The error branches of
the source return `{'detections': [], 'error': ...}` with no
`has_fire`/`has_smoke`/`annotated_frame` keys; `dict.get` on a missing key
yields the falsy/`None` value, which is what the `false`/`none` defaults
model. -/
structure DetectResult where
  detections : List Detection := []
  annotated_frame : Option String := none
  has_fire : Bool := false
  has_smoke : Bool := false
  error : Option String := none
deriving DecidableEq

/-- Abstraction of `_annotate_frame` followed by `_encode_base64`
(cv2 drawing plus JPEG/base64, outside the model): an injective transform
of the input frame. -/
def annotatedOf (frame : String) : String := "annotated:" ++ frame

/-- The detection loop of `FireSmokeDetector.detect`: every box becomes a
detection dict; boxes whose lowercased class name is a fire (resp. smoke)
alias are renamed to `fire` (resp. `smoke`) and set the corresponding
flag. -/
def classifyBoxes : List RawBox → Nat → List Detection × Bool × Bool
  | [], _ => ([], false, false)
  | b :: rest, now =>
      let lower := lowerStr b.class_name
      let (cls, isF, isS) :=
        if fireAliases.contains lower then ("fire", true, false)
        else if smokeAliases.contains lower then ("smoke", false, true)
        else (b.class_name, false, false)
      let (ds, f, s) := classifyBoxes rest now
      ({ cls := cls, confidence := b.conf, bbox := b.xyxy,
         timestamp := now } :: ds,
       isF || f, isS || s)

/-- `FireSmokeDetector.detect` (`detection/detector.py` lines 85-169). -/
def FireSmokeDetector.detect (frame : String) (o : YoloOutcome) (now : Nat) :
    DetectResult :=
  match o with
  | YoloOutcome.modelNotLoaded => { error := some "Model not loaded" }
  | YoloOutcome.invalidFrame => { error := some "Invalid frame" }
  | YoloOutcome.raised msg => { error := some msg }
  | YoloOutcome.infer boxes =>
      let (detections, has_fire, has_smoke) := classifyBoxes boxes now
      { detections := detections
        annotated_frame := some (annotatedOf frame)
        has_fire := has_fire
        has_smoke := has_smoke }

/-- The per-detection `for` loop of `FireSmokeDetector._log_detection`
(`detection/detector.py` lines 280-292), as structural recursion over the
detections list. -/
def FireSmokeDetector.log_detection_go (drone : Drone) (now : Nat) :
    List Detection → DB → DB
  | [], db => db
  | det :: rest, db =>
      let db :=
        if ["fire", "smoke"].contains det.cls then
          let entry : LogEntry :=
            { source := drone.name
              message := upperStr det.cls ++ " TESPİT EDİLDİ! Güven: " ++
                pct det.confidence
              log_type := if det.cls == "fire" then LogType.FIRE_DETECTED
                else LogType.SMOKE_DETECTED
              droneId := some drone.drone_id
              confidence := some det.confidence
              detection_class := det.cls
              bbox := some det.bbox
              timestamp := now }
          (db.createLog entry).1
        else db
      FireSmokeDetector.log_detection_go drone now rest db

/-- `FireSmokeDetector._log_detection` (`detection/detector.py` lines
273-308): look the drone up (`Drone.DoesNotExist` is swallowed), create a
`LogEntry` per fire/smoke detection, then — when a session id was given
and resolves — increment the session counters and do a full-row save. -/
def FireSmokeDetector.log_detection (db : DB) (drone_id : String)
    (result : DetectResult) (session_id : Option String) (now : Nat) : DB :=
  match db.findDrone drone_id with
  | none => db
  | some drone =>
      let db := FireSmokeDetector.log_detection_go drone now
        result.detections db
      match session_id with
      | none => db
      | some sid =>
          match db.findSession sid with
          | none => db
          | some session =>
              let s := { session with
                total_frames_processed := session.total_frames_processed + 1,
                fire_detections := session.fire_detections +
                  (if result.has_fire then 1 else 0),
                smoke_detections := session.smoke_detections +
                  (if result.has_smoke then 1 else 0) }
              { db with sessions := db.sessions.map (fun t =>
                  if t.session_id == sid then s else t) }

/-- `FireSmokeDetector.process_video_frame` (`detection/detector.py` lines
253-271): run `detect`, and when a fire or smoke flag is set, run the
detector's own `_log_detection`. -/
def FireSmokeDetector.process_video_frame (db : DB)
    (drone_id frame_data : String) (session_id : Option String)
    (o : YoloOutcome) (now : Nat) : DB × DetectResult :=
  let result := FireSmokeDetector.detect frame_data o now
  let db :=
    if result.has_fire || result.has_smoke then
      FireSmokeDetector.log_detection db drone_id result session_id now
    else db
  (db, result)

/-- One value of `DetectionService.active_sessions` (`detection/detector.py`
lines 311-351). -/
structure DispatchEntry where
  session_id : String
  is_active : Bool := true
  frames_processed : Nat := 0
deriving DecidableEq

/-- The `DetectionService.active_sessions` dict, as an association list with
unique keys. -/
abbrev Dispatch := List (String × DispatchEntry)

/-- Python dict lookup `d.get(key)` / `d[key]`. -/
def dictLookup (d : Dispatch) (key : String) : Option DispatchEntry :=
  (d.find? (fun p => p.1 == key)).map (fun p => p.2)

/-- Python dict assignment `d[key] = v`: replace in place, or append. -/
def dictSet (d : Dispatch) (key : String) (v : DispatchEntry) : Dispatch :=
  if (d.find? (fun p => p.1 == key)).isSome then
    d.map (fun p => if p.1 == key then (key, v) else p)
  else d ++ [(key, v)]

/-- Python `del d[key]`. -/
def dictErase (d : Dispatch) (key : String) : Dispatch :=
  d.filter (fun p => !(p.1 == key))

/-- `DetectionService.start_detection`: record that frames of the drone are
forwarded to the pipeline, tagged with the session id. -/
def DetectionService.start_detection (d : Dispatch)
    (drone_id session_id : String) : Dispatch :=
  dictSet d drone_id { session_id := session_id }

/-- `DetectionService.stop_detection`: flip the entry inactive then delete
it — the net effect is deletion. -/
def DetectionService.stop_detection (d : Dispatch) (drone_id : String) :
    Dispatch :=
  dictErase d drone_id

/-- `DetectionService.is_active`. -/
def DetectionService.is_active (d : Dispatch) (drone_id : String) : Bool :=
  match dictLookup d drone_id with
  | some e => e.is_active
  | none => false

/-- `DetectionService.process_frame` (`detection/detector.py` lines
341-351): `None` when the drone is not active in the dispatcher; otherwise
delegate to `process_video_frame` with the recorded session id and bump the
dispatcher's local frame counter. -/
def DetectionService.process_frame (db : DB) (d : Dispatch)
    (drone_id frame_data : String) (o : YoloOutcome) (now : Nat) :
    DB × Dispatch × Option DetectResult :=
  if DetectionService.is_active d drone_id then
    match dictLookup d drone_id with
    | some entry =>
        let (db, result) := FireSmokeDetector.process_video_frame db drone_id
          frame_data (some entry.session_id) o now
        let d := dictSet d drone_id
          { entry with frames_processed := entry.frames_processed + 1 }
        (db, d, some result)
    | none => (db, d, none)
  else (db, d, none)

/-- A parsed telemetry message body (`_on_telemetry` reads
`message['data'].get('status')` and `message.get('timestamp')`). -/
structure TelemetryMsg where
  timestamp : Option Nat := none
  dataStatus : Option String := none
deriving DecidableEq

/-- A parsed video message body (`_on_video` reads `data`, `frame_number`,
`timestamp`). -/
structure VideoMsg where
  timestamp : Option Nat := none
  data : Option String := none
  frame_number : Nat := 0
deriving DecidableEq

/-- A parsed alert message body. -/
structure AlertMsg where
  timestamp : Option Nat := none
  message : Option String := none
deriving DecidableEq

/-- A parsed GUI command message body (`command` plus `params`). -/
structure GuiCommandMsg where
  command : Option String := none
  params : List (String × String) := []
deriving DecidableEq

/-- `UnifiedConsumer._on_telemetry` (`rabbitmq_service/consumer.py` lines
172-198): a `json.loads` failure (`none` body) is nacked without requeue;
otherwise the drone row's cached status / last-seen are updated via a
query-set `update` (which bypasses the save hook and `auto_now`), an
enriched payload is published to the GUI telemetry topic, and the message
is acked. -/
def UnifiedConsumer.on_telemetry (db : DB) (drone : Drone)
    (body : Option TelemetryMsg) (now : Nat) : DB × Effects × Ack :=
  match body with
  | none => (db, {}, Ack.nackNoRequeue)
  | some message =>
      let db := { db with drones := db.drones.map (fun d =>
        if d.drone_id == drone.drone_id then
          { d with last_status := message.dataStatus.getD drone.last_status,
                   last_seen := some now }
        else d) }
      let gui := publishGui drone.drone_id "telemetry"
        (GuiPayload.TELEMETRY (message.timestamp.getD now) drone.drone_id
          message.dataStatus)
      (db, { gui := [gui] }, Ack.ack)

/-- `UnifiedConsumer._on_alert` (`rabbitmq_service/consumer.py` lines
287-312): parse failure is nacked without requeue; otherwise an `ALERT`
log entry is created, the alert is republished to the GUI alerts topic,
and the message is acked. -/
def UnifiedConsumer.on_alert (db : DB) (drone : Drone)
    (body : Option AlertMsg) (now : Nat) : DB × Effects × Ack :=
  match body with
  | none => (db, {}, Ack.nackNoRequeue)
  | some message =>
      let entry : LogEntry :=
        { source := drone.name
          message := message.message.getD "Alert alındı"
          log_type := LogType.ALERT
          droneId := some drone.drone_id
          timestamp := now }
      let db := (db.createLog entry).1
      let gui := publishGui drone.drone_id "alerts"
        (GuiPayload.ALERT (message.timestamp.getD now) drone.drone_id
          (message.message.getD ""))
      (db, { gui := [gui] }, Ack.ack)

/-- The per-detection `for` loop of `UnifiedConsumer._log_detection`
(`rabbitmq_service/consumer.py` lines 417-449), as structural recursion:
for every fire/smoke detection, create a `LogEntry` and publish a
`DETECTION_ALERT` carrying the created log id to the GUI alerts topic.
(The `session` parameter of the source is unused in its body and is
omitted.) -/
def UnifiedConsumer.log_detection_go (drone : Drone) (now : Nat) :
    List Detection → DB × List GuiPublish → DB × List GuiPublish
  | [], acc => acc
  | det :: rest, acc =>
      let acc :=
        if ["fire", "smoke"].contains det.cls then
          let entry : LogEntry :=
            { source := drone.name
              message := "🔥 " ++ upperStr det.cls ++
                " TESPİT EDİLDİ! Güven: " ++ pct det.confidence
              log_type := if det.cls == "fire" then LogType.FIRE_DETECTED
                else LogType.SMOKE_DETECTED
              droneId := some drone.drone_id
              confidence := some det.confidence
              detection_class := det.cls
              bbox := some det.bbox
              timestamp := now }
          let (db, log_id) := acc.1.createLog entry
          (db, acc.2 ++ [publishGui drone.drone_id "alerts"
            (GuiPayload.DETECTION_ALERT now drone.drone_id det.cls
              det.confidence (some det.bbox) log_id)])
        else acc
      UnifiedConsumer.log_detection_go drone now rest acc

/-- `UnifiedConsumer._log_detection`, packaged: run the loop over the
result's detections starting from the store and no publishes. -/
def UnifiedConsumer.log_detection (db : DB) (drone : Drone)
    (result : DetectResult) (now : Nat) : DB × List GuiPublish :=
  UnifiedConsumer.log_detection_go drone now result.detections (db, [])

/-- `UnifiedConsumer._update_session_stats` (`rabbitmq_service/consumer.py`
lines 451-464): increment the in-memory session's counters and save with
`update_fields` holding exactly the incremented columns. -/
def UnifiedConsumer.update_session_stats (db : DB) (session : ScanSession)
    (result : DetectResult) : DB :=
  let s := { session with
    total_frames_processed := session.total_frames_processed + 1,
    fire_detections := session.fire_detections +
      (if result.has_fire then 1 else 0),
    smoke_detections := session.smoke_detections +
      (if result.has_smoke then 1 else 0) }
  { db with sessions := db.sessions.map (fun t =>
      if t.session_id == session.session_id then
        { t with
            total_frames_processed := s.total_frames_processed,
            fire_detections :=
              if result.has_fire then s.fire_detections else t.fire_detections,
            smoke_detections :=
              if result.has_smoke then s.smoke_detections
              else t.smoke_detections }
      else t) }

/-- Result of one `_on_video` invocation.  `observed` is the value the
handler's local `result` variable took (`none` when the frame was empty or
no scan session was active), recorded so that theorems can speak about
what the router observed from the detection dispatcher. -/
structure VideoStep where
  db : DB
  dispatch : Dispatch
  effects : Effects
  ack : Ack
  observed : Option DetectResult
deriving DecidableEq

/-- `UnifiedConsumer._on_video` (`rabbitmq_service/consumer.py` lines
200-285).  Parse failure → nack without requeue.  Empty frame data → ack
and return.  No active scan session → republish the raw frame tagged
`scanning:false` and ack.  Active session → invoke the dispatcher; when it
returns a result, republish the (possibly annotated) frame tagged
`scanning:true`, publish a detection event when detections are non-empty,
run the consumer's `_log_detection` when a fire/smoke flag is set, update
the session counters from the stale in-memory session, and ack; when the
dispatcher returns `None`, republish the raw frame tagged `scanning:true`
and ack. -/
def UnifiedConsumer.on_video (db : DB) (dispatch : Dispatch) (drone : Drone)
    (body : Option VideoMsg) (o : YoloOutcome) (now : Nat) : VideoStep :=
  match body with
  | none => ⟨db, dispatch, {}, Ack.nackNoRequeue, none⟩
  | some message =>
      let frame_number := message.frame_number
      let timestamp := message.timestamp.getD now
      match message.data with
      | none => ⟨db, dispatch, {}, Ack.ack, none⟩
      | some frame_data =>
          if frame_data = "" then ⟨db, dispatch, {}, Ack.ack, none⟩
          else
            match db.activeSessionFor drone.drone_id with
            | some active_session =>
                let (db, dispatch, result) := DetectionService.process_frame
                  db dispatch drone.drone_id frame_data o now
                match result with
                | some r =>
                    let gui_frame := r.annotated_frame.getD frame_data
                    let videoPub := publishGui drone.drone_id "video"
                      (GuiPayload.VIDEO_FRAME timestamp drone.drone_id
                        frame_number gui_frame true)
                    let detPubs :=
                      if r.detections.isEmpty then []
                      else [publishGui drone.drone_id "detection"
                        (GuiPayload.DETECTION timestamp drone.drone_id
                          frame_number r.detections r.has_fire r.has_smoke)]
                    let (db, alertPubs) :=
                      if r.has_fire || r.has_smoke then
                        UnifiedConsumer.log_detection db drone r now
                      else (db, [])
                    let db := UnifiedConsumer.update_session_stats db
                      active_session r
                    ⟨db, dispatch,
                      { gui := [videoPub] ++ detPubs ++ alertPubs },
                      Ack.ack, some r⟩
                | none =>
                    ⟨db, dispatch,
                      { gui := [publishGui drone.drone_id "video"
                          (GuiPayload.VIDEO_FRAME timestamp drone.drone_id
                            frame_number frame_data true)] },
                      Ack.ack, none⟩
            | none =>
                ⟨db, dispatch,
                  { gui := [publishGui drone.drone_id "video"
                      (GuiPayload.VIDEO_FRAME timestamp drone.drone_id
                        frame_number frame_data false)] },
                  Ack.ack, none⟩

/-- `UnifiedConsumer._handle_start_scan` (`rabbitmq_service/consumer.py`
lines 357-381): start a session through the registry (`none` when
`DroneNotFound` propagates), activate the dispatcher, publish a
`SCAN_STARTED` status event, and forward `START_SCAN` with the session id
to the drone's command queue. -/
def UnifiedConsumer.handle_start_scan (db : DB) (dispatch : Dispatch)
    (drone : Drone) (now : Nat) (newId : String) :
    Option (DB × Dispatch × Effects) :=
  match ScanService.start db drone.drone_id now newId with
  | none => none
  | some (db, session) =>
      let dispatch := DetectionService.start_detection dispatch
        drone.drone_id session.session_id
      let statusPub := publishGui drone.drone_id "status"
        (GuiPayload.SCAN_STARTED now drone.drone_id session.session_id)
      let cmd := sendCommand drone
        { command := some "START_SCAN",
          session_id := some session.session_id } now
      some (db, dispatch, { gui := [statusPub], commands := [cmd] })

/-- `UnifiedConsumer._handle_stop_scan` (`rabbitmq_service/consumer.py`
lines 383-413): when an active session exists, stop it through the
registry, deactivate the dispatcher, publish a `SCAN_STOPPED` status event
carrying the final counters, and forward `STOP_SCAN` with the session id
to the drone's command queue; otherwise do nothing. -/
def UnifiedConsumer.handle_stop_scan (db : DB) (dispatch : Dispatch)
    (drone : Drone) (now : Nat) : DB × Dispatch × Effects :=
  match db.activeSessionFor drone.drone_id with
  | none => (db, dispatch, {})
  | some active =>
      let (db, session) := ScanService.stop db active now
      let dispatch := DetectionService.stop_detection dispatch drone.drone_id
      let statusPub := publishGui drone.drone_id "status"
        (GuiPayload.SCAN_STOPPED now drone.drone_id session.session_id
          session.total_frames_processed session.fire_detections
          session.smoke_detections)
      let cmd := sendCommand drone
        { command := some "STOP_SCAN",
          session_id := some session.session_id } now
      (db, dispatch, { gui := [statusPub], commands := [cmd] })

/-- `UnifiedConsumer._on_gui_command` (`rabbitmq_service/consumer.py` lines
314-353): parse failure → nack without requeue.  `START_SCAN` and
`STOP_SCAN` are intercepted; any other command is forwarded verbatim to the
drone's command queue.  After dispatch a `COMMAND_ACK` status event is
published and the message is acked; a raised `DroneNotFound` inside
`START_SCAN` handling reaches the except-branch and nacks. -/
def UnifiedConsumer.on_gui_command (db : DB) (dispatch : Dispatch)
    (drone : Drone) (body : Option GuiCommandMsg) (now : Nat)
    (newId : String) : DB × Dispatch × Effects × Ack :=
  match body with
  | none => (db, dispatch, {}, Ack.nackNoRequeue)
  | some message =>
      let command := message.command
      let ackPub := publishGui drone.drone_id "status"
        (GuiPayload.COMMAND_ACK now drone.drone_id command "sent")
      if command == some "START_SCAN" then
        match UnifiedConsumer.handle_start_scan db dispatch drone now newId with
        | none => (db, dispatch, {}, Ack.nackNoRequeue)
        | some (db, dispatch, eff) =>
            (db, dispatch, { eff with gui := eff.gui ++ [ackPub] }, Ack.ack)
      else if command == some "STOP_SCAN" then
        let (db, dispatch, eff) :=
          UnifiedConsumer.handle_stop_scan db dispatch drone now
        (db, dispatch, { eff with gui := eff.gui ++ [ackPub] }, Ack.ack)
      else
        let cmd := sendCommand drone
          { command := command, params := some message.params } now
        (db, dispatch, { gui := [ackPub], commands := [cmd] }, Ack.ack)

/-- Iterating `ScanService.record_frame(session, False, False)` N times on
the store/in-memory-session pair, as claim C8 quantifies over. -/
def recordFrames (db : DB) (s : ScanSession) : Nat → DB × ScanSession
  | 0 => (db, s)
  | n + 1 =>
      let (db, s) := recordFrames db s n
      ScanService.record_frame db s false false

/-- One accepted `START_SCAN` for claim C2.  `ScanService.start` has no
side effect in its `DroneNotFound` branch, so a total step function may
return the store unchanged there; under C2's drone-exists hypothesis that
branch never runs. -/
def startStep (drone_id : String) (db : DB) (input : Nat × String) : DB :=
  match ScanService.start db drone_id input.1 input.2 with
  | some (db, _) => db
  | none => db

/-- A sequence of `START_SCAN` commands for the same drone with no
intervening `STOP_SCAN`: each input is the (timestamp, fresh session id)
pair of one accepted start. -/
def startSeq (db : DB) (drone_id : String)
    (inputs : List (Nat × String)) : DB :=
  inputs.foldl (startStep drone_id) db

/-- Number of active scan sessions held by the registry for one drone. -/
def DB.countActiveFor (db : DB) (drone_id : String) : Nat :=
  (db.sessions.filter (fun s => s.droneId == drone_id && s.is_active)).length

/-- Whether a drone row with the given id exists. -/
def DB.hasDrone (db : DB) (drone_id : String) : Bool :=
  (db.findDrone drone_id).isSome

/-- The GUI publishes of a handler invocation that went to the video
topic. -/
def Effects.videoPubs (e : Effects) : List GuiPublish :=
  e.gui.filter (fun p => p.message_type == "video")

/-- The GUI publishes that went to the detection topic. -/
def Effects.detectionPubs (e : Effects) : List GuiPublish :=
  e.gui.filter (fun p => p.message_type == "detection")

/-- The published `DETECTION_ALERT` alert-topic events. -/
def Effects.detectionAlertPubs (e : Effects) : List GuiPublish :=
  e.gui.filter (fun p =>
    p.message_type == "alerts" &&
      match p.payload with
      | GuiPayload.DETECTION_ALERT _ _ _ _ _ _ => true
      | _ => false)

/-- Sample registered drone (topics filled in by the save hook at
creation, as `DroneService.register` produces them). -/
def droneD01 : Drone :=
  { drone_id := "D-01"
    name := "Firefly"
    model := "FX-1"
    gui_token := "tok-1"
    telemetry_topic := "drone.D-01.telemetry"
    command_topic := "drone.D-01.commands"
    video_topic := "drone.D-01.video"
    alert_topic := "drone.D-01.alerts"
    last_status := DroneStatus.HOVERING
    last_seen := some 1
    is_active := true
    registered_at := 0
    updated_at := 0 }

/-- Sample active scan session S1 owned by `droneD01`. -/
def sessionS1 : ScanSession :=
  { session_id := "S1", droneId := "D-01", started_at := 2 }

/-- Store in which `droneD01` has the single active session `sessionS1`. -/
def dbScan : DB :=
  { drones := [droneD01], sessions := [sessionS1] }

/-- Dispatcher state in which detection is running for `droneD01` under
`sessionS1`. -/
def dispatchD01 : Dispatch :=
  [("D-01", { session_id := "S1" })]

/-- Sample non-empty video frame message. -/
def videoMsg1 : VideoMsg :=
  { timestamp := some 8, data := some "frame-bytes", frame_number := 3 }

/-- Raw YOLO box: a fire detection with confidence 0.82. -/
def rawFire082 : RawBox :=
  { class_name := "fire", conf := (82 : Rat) / 100, xyxy := [1, 2, 3, 4] }

/-- Scenario instantiation: one video frame handled for a drone whose
store holds exactly the session `S`, with the dispatcher active for that
drone under `S`'s id and `m` frames already counted locally; the frame
message carries timestamp `t`, data `fd` and frame number `fn`, and the
opaque YOLO invocation resolves to `o`. -/
def videoStepOn (drone : Drone) (S : ScanSession) (L : List LogEntry)
    (k m fn : Nat) (t : Option Nat) (fd : String) (o : YoloOutcome)
    (now : Nat) : VideoStep :=
  UnifiedConsumer.on_video
    { drones := [drone], sessions := [S], logs := L, next_log_id := k }
    [(drone.drone_id, { session_id := S.session_id, frames_processed := m })]
    drone (some { timestamp := t, data := some fd, frame_number := fn }) o
    now

/-- The same drone row with all four topic fields blank, i.e. a row as it
looks just before its first save. -/
def Drone.blankTopics (d : Drone) : Drone :=
  { d with
      telemetry_topic := ""
      command_topic := ""
      video_topic := ""
      alert_topic := "" }

/-- C3: every message published through the router's GUI-publish helper
(`UnifiedConsumer._publish_gui`) has routing key
`gui.<droneId>.<messageType>`, is published transient (persistence flag
false, pika delivery mode 1) exactly when the message type is `"video"`,
and persistent (delivery mode 2) for every other message type. -/
theorem c3_gui_publish_policy (drone_id message_type : String)
    (payload : GuiPayload) :
    (publishGui drone_id message_type payload).routing_key =
      "gui." ++ drone_id ++ "." ++ message_type ∧
    ((publishGui drone_id message_type payload).persistent = false ↔
      message_type = "video") ∧
    ((publishGui drone_id message_type payload).delivery_mode = 1 ↔
      message_type = "video") ∧
    ((publishGui drone_id message_type payload).delivery_mode = 2 ↔
      ¬ message_type = "video") := by
  by_cases h : message_type = "video" <;>
    simp [publishGui, List.contains, h, eq_comm]

/-- C5: feeding a message body that is not valid JSON (the `none` parse
result) to any of the four handlers yields a negative acknowledgment
without requeue and no other side effect: the store is returned unchanged,
the dispatcher is unchanged, and no GUI or command publish is recorded. -/
theorem c5_malformed_nack (db : DB) (dispatch : Dispatch) (drone : Drone)
    (o : YoloOutcome) (now : Nat) (newId : String) :
    UnifiedConsumer.on_telemetry db drone none now =
      (db, {}, Ack.nackNoRequeue) ∧
    UnifiedConsumer.on_video db dispatch drone none o now =
      ⟨db, dispatch, {}, Ack.nackNoRequeue, none⟩ ∧
    UnifiedConsumer.on_alert db drone none now =
      (db, {}, Ack.nackNoRequeue) ∧
    UnifiedConsumer.on_gui_command db dispatch drone none now newId =
      (db, dispatch, {}, Ack.nackNoRequeue) :=
  ⟨rfl, rfl, rfl, rfl⟩

/-- C8: calling `recordFrame(session, False, False)` N times increases the
session's `total_frames_processed` by exactly N and leaves
`fire_detections` and `smoke_detections` unchanged. -/
theorem c8_record_frame_counts (db : DB) (s : ScanSession) (n : Nat) :
    (recordFrames db s n).2.total_frames_processed =
      s.total_frames_processed + n ∧
    (recordFrames db s n).2.fire_detections = s.fire_detections ∧
    (recordFrames db s n).2.smoke_detections = s.smoke_detections := by
  induction n with
  | zero => simp [recordFrames]
  | succ n ih =>
      obtain ⟨h1, h2, h3⟩ := ih
      refine ⟨?_, ?_, ?_⟩ <;>
        simp [recordFrames, ScanService.record_frame, h1, h2, h3]
      ring

/-- C9: the four drone-facing topic names are a pure function of the drone
identifier — saving a drone whose topics are blank derives them as
`drone.<id>.<kind>` from the id alone — and recomputation is idempotent:
saving a drone whose topic fields are already set leaves all four topic
fields unchanged. -/
theorem c9_topics_pure_idempotent (d : Drone) (now : Nat) :
    ((d.blankTopics.save now).telemetry_topic =
        "drone." ++ d.drone_id ++ ".telemetry" ∧
     (d.blankTopics.save now).command_topic =
        "drone." ++ d.drone_id ++ ".commands" ∧
     (d.blankTopics.save now).video_topic =
        "drone." ++ d.drone_id ++ ".video" ∧
     (d.blankTopics.save now).alert_topic =
        "drone." ++ d.drone_id ++ ".alerts") ∧
    (d.telemetry_topic ≠ "" →
      (d.save now).telemetry_topic = d.telemetry_topic ∧
      (d.save now).command_topic = d.command_topic ∧
      (d.save now).video_topic = d.video_topic ∧
      (d.save now).alert_topic = d.alert_topic) := by
  constructor
  · simp [Drone.save, Drone.blankTopics]
  · intro h
    simp [Drone.save, h]

/-- Helper: `ScanService.start` touches only the sessions, drones-status
and logs; when the drone exists, the resulting session table is the old one
with every active session of the drone closed, plus the fresh session. -/
theorem startStep_sessions (drone_id : String) (db : DB) (inp : Nat × String)
    (h : db.hasDrone drone_id = true) :
    (startStep drone_id db inp).sessions =
      db.sessions.map (fun s : ScanSession =>
        if s.droneId == drone_id && s.is_active then
          { s with is_active := false, ended_at := some inp.1 }
        else s) ++
      [{ session_id := inp.2, droneId := drone_id, started_at := inp.1 }] := by
  obtain ⟨d, hd⟩ := Option.isSome_iff_exists.mp h
  unfold startStep ScanService.start
  rw [hd]
  simp [DroneService.update_status, LogService.log_drone_event, DB.createLog]

/-- Helper: mapping a `drone_id`-preserving function over the drone table
does not change whether a lookup by id succeeds. -/
theorem find_isSome_map_preserve (x : String) (f : Drone → Drone)
    (hf : ∀ d, (f d).drone_id = d.drone_id) :
    ∀ l : List Drone,
      ((l.map f).find? (fun d => d.drone_id == x)).isSome =
        (l.find? (fun d => d.drone_id == x)).isSome
  | [] => rfl
  | a :: t => by
      rw [List.map_cons, List.find?_cons, List.find?_cons, hf a]
      cases hpa : (a.drone_id == x) with
      | true => rfl
      | false => exact find_isSome_map_preserve x f hf t

/-- Helper: an accepted start does not create or delete drone rows, so
drone existence is invariant. -/
theorem startStep_hasDrone (drone_id x : String) (db : DB)
    (inp : Nat × String) :
    (startStep drone_id db inp).hasDrone x = db.hasDrone x := by
  unfold startStep ScanService.start
  cases hfd : db.findDrone drone_id with
  | none => rfl
  | some d =>
      simp only [DB.hasDrone, DB.findDrone, DroneService.update_status,
        LogService.log_drone_event, DB.createLog]
      exact find_isSome_map_preserve x _ (fun d => by split <;> rfl)
        db.drones

/-- Helper: closing every active session of a drone leaves no session of
that drone active. -/
theorem filter_close_nil (drone_id : String) (now : Nat)
    (l : List ScanSession) :
    (l.map (fun s : ScanSession =>
        if s.droneId == drone_id && s.is_active then
          { s with is_active := false, ended_at := some now }
        else s)).filter
      (fun s => s.droneId == drone_id && s.is_active) = [] := by
  rw [List.filter_eq_nil_iff]
  intro s hs
  obtain ⟨u, hu, rfl⟩ := List.mem_map.mp hs
  by_cases hc : (u.droneId == drone_id && u.is_active) = true
  · rw [if_pos hc]
    simp
  · rw [if_neg hc]
    exact fun h => hc h

/-- Helper: after one accepted start the registry holds exactly one active
session for the drone. -/
theorem countActive_startStep (drone_id : String) (db : DB)
    (inp : Nat × String) (h : db.hasDrone drone_id = true) :
    (startStep drone_id db inp).countActiveFor drone_id = 1 := by
  unfold DB.countActiveFor
  rw [startStep_sessions drone_id db inp h, List.filter_append,
    filter_close_nil]
  simp

/-- Helper: after every nonempty sequence of accepted starts the registry
holds exactly one active session for the drone. -/
theorem countActive_startSeq (drone_id : String) (db : DB)
    (inputs : List (Nat × String)) (hne : inputs ≠ [])
    (h : db.hasDrone drone_id = true) :
    (startSeq db drone_id inputs).countActiveFor drone_id = 1 := by
  induction inputs generalizing db with
  | nil => exact absurd rfl hne
  | cons a t ih =>
      cases t with
      | nil => simpa [startSeq] using countActive_startStep drone_id db a h
      | cons b u =>
          have h' : (startStep drone_id db a).hasDrone drone_id = true := by
            rw [startStep_hasDrone]; exact h
          simpa [startSeq] using ih (startStep drone_id db a) (by simp) h'

/-- Helper: an already-closed session row survives an accepted start
unchanged. -/
theorem closed_mem_startStep (drone_id : String) (db : DB)
    (inp : Nat × String) (s : ScanSession) (hs : s ∈ db.sessions)
    (hact : s.is_active = false) :
    s ∈ (startStep drone_id db inp).sessions := by
  unfold startStep ScanService.start
  cases hfd : db.findDrone drone_id with
  | none => simpa using hs
  | some d =>
      simp only [DroneService.update_status, LogService.log_drone_event,
        DB.createLog, List.mem_append]
      left
      refine List.mem_map.mpr ⟨s, hs, ?_⟩
      simp [hact]

/-- Helper: an already-closed session row survives a whole sequence of
accepted starts unchanged. -/
theorem closed_mem_startSeq (drone_id : String) (db : DB)
    (inputs : List (Nat × String)) (s : ScanSession) (hs : s ∈ db.sessions)
    (hact : s.is_active = false) :
    s ∈ (startSeq db drone_id inputs).sessions := by
  induction inputs generalizing db with
  | nil => simpa [startSeq] using hs
  | cons a t ih =>
      have h1 := closed_mem_startStep drone_id db a s hs hact
      simpa [startSeq] using ih (startStep drone_id db a) h1

/-- Helper: an active session of the drone is closed (non-null end
timestamp) by an accepted start. -/
theorem active_closed_startStep (drone_id : String) (db : DB)
    (inp : Nat × String) (h : db.hasDrone drone_id = true)
    (s : ScanSession) (hs : s ∈ db.sessions) (hd : s.droneId = drone_id)
    (hact : s.is_active = true) :
    { s with is_active := false, ended_at := some inp.1 } ∈
      (startStep drone_id db inp).sessions := by
  rw [startStep_sessions drone_id db inp h]
  refine List.mem_append.mpr (Or.inl (List.mem_map.mpr ⟨s, hs, ?_⟩))
  simp [hd, hact]

/-- C2: for every sequence of accepted `START_SCAN` commands for the same
drone without an intervening stop, the registry afterwards holds exactly
one active scan session for that drone (and this holds after each call,
since the first conjunct applies to every nonempty prefix as well), and
every session of that drone that was active before the sequence is closed:
a row with its session id is present with `is_active = false` and a
non-null `ended_at`. -/
theorem c2_single_active_session (db : DB) (drone_id : String)
    (inputs : List (Nat × String)) (hne : inputs ≠ [])
    (hdr : db.hasDrone drone_id = true) :
    (startSeq db drone_id inputs).countActiveFor drone_id = 1 ∧
    ∀ s ∈ db.sessions, s.droneId = drone_id → s.is_active = true →
      ∃ s' ∈ (startSeq db drone_id inputs).sessions,
        s'.session_id = s.session_id ∧ s'.is_active = false ∧
        s'.ended_at ≠ none := by
  refine ⟨countActive_startSeq drone_id db inputs hne hdr, ?_⟩
  intro s hs hd hact
  cases inputs with
  | nil => exact absurd rfl hne
  | cons a t =>
      refine ⟨{ s with is_active := false, ended_at := some a.1 }, ?_,
        rfl, rfl, by simp⟩
      have h1 := active_closed_startStep drone_id db a hdr s hs hd hact
      simpa [startSeq] using
        closed_mem_startSeq drone_id (startStep drone_id db a) t _ h1 rfl

/-- Witness for C2: two consecutive starts on a store holding one active
session close it and leave exactly one active session. -/
theorem c2_witness :
    (startSeq dbScan "D-01" [(3, "SA"), (4, "SB")]).countActiveFor "D-01"
        = 1 ∧
    ∃ s' ∈ (startSeq dbScan "D-01" [(3, "SA"), (4, "SB")]).sessions,
      s'.session_id = sessionS1.session_id ∧ s'.is_active = false ∧
      s'.ended_at ≠ none := by
  have h := c2_single_active_session dbScan "D-01" [(3, "SA"), (4, "SB")]
    (by simp) (by decide)
  exact ⟨h.1, h.2 sessionS1 (by simp [dbScan]) rfl rfl⟩

/-- Counterexample to C6 as stated: with session S1 active (counters 0)
and the dispatcher active, a pipeline exception (the caught `raised`
branch) still hands the handler a result dict (`observed` is some), and
the session's `total_frames_processed` is updated from 0 to 1 — the frame
is not treated as dropped and the counters are not left unchanged. -/
theorem c6_counterexample :
    (UnifiedConsumer.on_video dbScan dispatchD01 droneD01 (some videoMsg1)
        (YoloOutcome.raised "boom") 9).observed.isSome = true ∧
    (UnifiedConsumer.on_video dbScan dispatchD01 droneD01 (some videoMsg1)
        (YoloOutcome.raised "boom") 9).db.sessions.map
      (fun s => s.total_frames_processed) = [1] ∧
    dbScan.sessions.map (fun s => s.total_frames_processed) = [0] := by
  exact ⟨rfl, rfl, rfl⟩

/-- C6 (amended): when the detection pipeline raises while a session S is
active, the router does not crash — the message is acked — but the caller
observes a result dict with an empty detections list and the error
message, the raw frame is still republished tagged `scanning:true` (no
other publish), no log entry is written, the fire/smoke counters are
unchanged, and `total_frames_processed` increases by exactly 1. -/
theorem c6_amended (drone : Drone) (S : ScanSession) (L : List LogEntry)
    (k m fn : Nat) (t : Option Nat) (fd msg : String) (now : Nat)
    (h1 : S.droneId = drone.drone_id) (h2 : S.is_active = true)
    (hne : fd ≠ "") :
    (videoStepOn drone S L k m fn t fd (YoloOutcome.raised msg) now).ack =
      Ack.ack ∧
    (videoStepOn drone S L k m fn t fd (YoloOutcome.raised msg)
        now).observed = some { detections := [], error := some msg } ∧
    (videoStepOn drone S L k m fn t fd (YoloOutcome.raised msg)
        now).effects.gui =
      [publishGui drone.drone_id "video"
        (GuiPayload.VIDEO_FRAME (t.getD now) drone.drone_id fn fd true)] ∧
    (videoStepOn drone S L k m fn t fd (YoloOutcome.raised msg)
        now).effects.commands = [] ∧
    (videoStepOn drone S L k m fn t fd (YoloOutcome.raised msg)
        now).db.sessions =
      [{ S with
          total_frames_processed := S.total_frames_processed + 1 }] ∧
    (videoStepOn drone S L k m fn t fd (YoloOutcome.raised msg)
        now).db.logs = L ∧
    (videoStepOn drone S L k m fn t fd (YoloOutcome.raised msg)
        now).db.drones = [drone] := by
  refine ⟨?_, ?_, ?_, ?_, ?_, ?_, ?_⟩ <;>
    simp [videoStepOn, UnifiedConsumer.on_video, DB.activeSessionFor,
      List.find?_cons, h1, h2, hne, DetectionService.process_frame,
      DetectionService.is_active, dictLookup, dictSet,
      FireSmokeDetector.process_video_frame, FireSmokeDetector.detect,
      UnifiedConsumer.update_session_stats, publishGui]

/-- Witness for C6 (amended): the concrete pipeline failure on S1 acks and
bumps only the frame counter. -/
theorem c6_witness :
    (videoStepOn droneD01 sessionS1 [] 0 0 3 (some 8) "frame-bytes"
        (YoloOutcome.raised "boom") 9).ack = Ack.ack ∧
    (videoStepOn droneD01 sessionS1 [] 0 0 3 (some 8) "frame-bytes"
        (YoloOutcome.raised "boom") 9).db.sessions =
      [{ sessionS1 with total_frames_processed := 1 }] := by
  have h := c6_amended droneD01 sessionS1 [] 0 0 3 (some 8) "frame-bytes"
    "boom" 9 (by decide) (by decide) (by decide)
  exact ⟨h.1, h.2.2.2.2.1⟩

/-- Counterexample to C1 as stated: a frame producing exactly one fire
detection while S1 is active creates TWO `FIRE_DETECTED` log entries, not
one — `FireSmokeDetector.process_video_frame` logs the detection inside
the pipeline and `UnifiedConsumer._log_detection` logs it again in the
router. -/
theorem c1_counterexample :
    ((videoStepOn droneD01 sessionS1 [] 0 0 3 (some 8) "frame-bytes"
        (YoloOutcome.infer [rawFire082]) 9).db.logs.filter
      (fun e => e.log_type == LogType.FIRE_DETECTED)).length = 2 := by
  decide

/-- C1 (amended): with a session S active and the dispatcher running, a
frame whose detection outcome is exactly one fire box with confidence `c`
is acked and creates exactly TWO `FIRE_DETECTED` log entries (one from the
pipeline's internal logging, one from the router), each carrying
confidence `c`; one GUI video message, one GUI detection-topic message and
one GUI alerts-topic `DETECTION_ALERT` message (carrying `c` and the
router-created log id) are published; and the stored session's
`total_frames_processed` and `fire_detections` each increase by exactly 1
net (the pipeline's increment is overwritten by the router's stale-read
increment, so the double update collapses to one). -/
theorem c1_amended (drone : Drone) (S : ScanSession) (L : List LogEntry)
    (k m fn : Nat) (t : Option Nat) (fd : String) (c : Rat)
    (bb : List Rat) (now : Nat)
    (h1 : S.droneId = drone.drone_id) (h2 : S.is_active = true)
    (hne : fd ≠ "") :
    (videoStepOn drone S L k m fn t fd
        (YoloOutcome.infer [{ class_name := "fire", conf := c, xyxy := bb }])
        now).ack = Ack.ack ∧
    (videoStepOn drone S L k m fn t fd
        (YoloOutcome.infer [{ class_name := "fire", conf := c, xyxy := bb }])
        now).db.sessions =
      [{ S with
          total_frames_processed := S.total_frames_processed + 1
          fire_detections := S.fire_detections + 1 }] ∧
    (videoStepOn drone S L k m fn t fd
        (YoloOutcome.infer [{ class_name := "fire", conf := c, xyxy := bb }])
        now).db.logs.length = L.length + 2 ∧
    (∀ e ∈ (videoStepOn drone S L k m fn t fd
        (YoloOutcome.infer [{ class_name := "fire", conf := c, xyxy := bb }])
        now).db.logs.drop L.length,
      e.log_type = LogType.FIRE_DETECTED ∧ e.confidence = some c ∧
        e.detection_class = "fire" ∧ e.droneId = some drone.drone_id) ∧
    (videoStepOn drone S L k m fn t fd
        (YoloOutcome.infer [{ class_name := "fire", conf := c, xyxy := bb }])
        now).effects.gui =
      [publishGui drone.drone_id "video"
        (GuiPayload.VIDEO_FRAME (t.getD now) drone.drone_id fn
          (annotatedOf fd) true),
       publishGui drone.drone_id "detection"
        (GuiPayload.DETECTION (t.getD now) drone.drone_id fn
          [{ cls := "fire", confidence := c, bbox := bb, timestamp := now }]
          true false),
       publishGui drone.drone_id "alerts"
        (GuiPayload.DETECTION_ALERT now drone.drone_id "fire" c (some bb)
          (k + 1))] ∧
    (videoStepOn drone S L k m fn t fd
        (YoloOutcome.infer [{ class_name := "fire", conf := c, xyxy := bb }])
        now).effects.commands = [] := by
  have hlow : lowerStr "fire" ∈ fireAliases := by decide
  have hfs : (["fire", "smoke"].contains "fire") = true := by decide
  refine ⟨?_, ?_, ?_, ?_, ?_, ?_⟩ <;>
    simp [videoStepOn, UnifiedConsumer.on_video, DB.activeSessionFor,
      List.find?_cons, h1, h2, hne, DetectionService.process_frame,
      DetectionService.is_active, dictLookup, dictSet,
      FireSmokeDetector.process_video_frame, FireSmokeDetector.detect,
      classifyBoxes, hlow, hfs, FireSmokeDetector.log_detection,
      FireSmokeDetector.log_detection_go, DB.findDrone, DB.findSession,
      DB.createLog, UnifiedConsumer.log_detection,
      UnifiedConsumer.log_detection_go,
      UnifiedConsumer.update_session_stats, publishGui,
      List.append_assoc, List.drop_left]

/-- Witness for C1 (amended): the fire frame with confidence 0.82 on S1 is
acked and exactly two log rows are written. -/
theorem c1_witness :
    (videoStepOn droneD01 sessionS1 [] 0 0 3 (some 8) "frame-bytes"
        (YoloOutcome.infer
          [{ class_name := "fire", conf := (82 : Rat) / 100,
             xyxy := [1, 2, 3, 4] }]) 9).ack = Ack.ack ∧
    (videoStepOn droneD01 sessionS1 [] 0 0 3 (some 8) "frame-bytes"
        (YoloOutcome.infer
          [{ class_name := "fire", conf := (82 : Rat) / 100,
             xyxy := [1, 2, 3, 4] }]) 9).db.logs.length = 2 := by
  have h := c1_amended droneD01 sessionS1 [] 0 0 3 (some 8) "frame-bytes"
    ((82 : Rat) / 100) [1, 2, 3, 4] 9 (by decide) (by decide) (by decide)
  exact ⟨h.1, h.2.2.1⟩

/-- Helper: every GUI publish appended by the consumer's `_log_detection`
loop goes to the alerts topic. -/
theorem log_detection_go_alerts (drone : Drone) (now : Nat)
    (dets : List Detection) (acc : DB × List GuiPublish)
    (h : ∀ p ∈ acc.2, p.message_type = "alerts") :
    ∀ p ∈ (UnifiedConsumer.log_detection_go drone now dets acc).2,
      p.message_type = "alerts" := by
  induction dets generalizing acc with
  | nil => exact h
  | cons det rest ih =>
      simp only [UnifiedConsumer.log_detection_go]
      by_cases hc : (["fire", "smoke"].contains det.cls) = true
      · rw [if_pos hc]
        apply ih
        intro p hp
        rcases List.mem_append.mp hp with h1 | h1
        · exact h p h1
        · rw [List.mem_singleton.mp h1]
          rfl
      · rw [if_neg hc]
        exact ih acc h

/-- Helper: a list whose members all target the alerts topic contributes
nothing to the video-topic filter. -/
theorem filter_video_of_alerts (l : List GuiPublish)
    (h : ∀ p ∈ l, p.message_type = "alerts") :
    l.filter (fun p => p.message_type == "video") = [] := by
  rw [List.filter_eq_nil_iff]
  intro p hp
  rw [h p hp]
  decide

/-- C4: for a video frame with non-empty frame data, the handler publishes
exactly one GUI video-topic message, and its `scanning` tag equals whether
an active scan session exists for the drone — in particular it is `false`
with no active session, and `true` with one regardless of the dispatcher
state and of the detection outcome. -/
theorem c4_scanning_flag (db : DB) (dispatch : Dispatch) (drone : Drone)
    (body : VideoMsg) (o : YoloOutcome) (now : Nat) (fd : String)
    (hdata : body.data = some fd) (hne : fd ≠ "") :
    (UnifiedConsumer.on_video db dispatch drone (some body) o
        now).effects.videoPubs.length = 1 ∧
    ∀ p ∈ (UnifiedConsumer.on_video db dispatch drone (some body) o
        now).effects.videoPubs,
      p.payload.scanningFlag =
        some (db.activeSessionFor drone.drone_id).isSome := by
  obtain ⟨ts, data, fn⟩ := body
  replace hdata : data = some fd := hdata
  subst hdata
  cases hact : db.activeSessionFor drone.drone_id with
  | none =>
      simp [UnifiedConsumer.on_video, hne, hact, Effects.videoPubs,
        List.filter, publishGui, GuiPayload.scanningFlag]
  | some S =>
      rcases hpf : DetectionService.process_frame db dispatch drone.drone_id
        fd o now with ⟨db2, dispatch2, result⟩
      cases result with
      | none =>
          simp [UnifiedConsumer.on_video, hne, hact, hpf, Effects.videoPubs,
            List.filter, publishGui, GuiPayload.scanningFlag]
      | some r =>
          by_cases hfire : (r.has_fire || r.has_smoke) = true
          · rcases hld : UnifiedConsumer.log_detection db2 drone r now with
              ⟨db3, alerts3⟩
            have halerts : ∀ p ∈ alerts3, p.message_type = "alerts" := by
              have h0 := log_detection_go_alerts drone now r.detections
                (db2, []) (by intro p hp; cases hp)
              rw [show UnifiedConsumer.log_detection_go drone now
                  r.detections (db2, []) = (db3, alerts3) from hld] at h0
              exact h0
            have hfa := filter_video_of_alerts _ halerts
            by_cases hdet : r.detections.isEmpty = true <;>
              simp [UnifiedConsumer.on_video, hne, hact, hpf, hfire, hld,
                hdet, Effects.videoPubs, List.filter_append, List.filter,
                publishGui, GuiPayload.scanningFlag, hfa]
          · by_cases hdet : r.detections.isEmpty = true <;>
              simp [UnifiedConsumer.on_video, hne, hact, hpf, hfire, hdet,
                Effects.videoPubs, List.filter_append, List.filter,
                publishGui, GuiPayload.scanningFlag]

/-- Witness for C4: a non-empty frame for a drone with no active session
produces exactly one GUI video publish. -/
theorem c4_witness :
    (UnifiedConsumer.on_video { drones := [droneD01] } [] droneD01
        (some videoMsg1) (YoloOutcome.infer [])
        9).effects.videoPubs.length = 1 :=
  (c4_scanning_flag { drones := [droneD01] } [] droneD01 videoMsg1
    (YoloOutcome.infer []) 9 "frame-bytes" rfl (by decide)).1

/-- Counterexample to C10 as stated: re-registering "D-01" at time 7 also
refreshes the `auto_now` column `updated_at` (0 becomes 7) — the save
lists it in `update_fields` — so a field other than the activity flag and
`last_seen` changes, contradicting "leaves every other field unchanged". -/
theorem c10_counterexample :
    (DroneService.register { drones := [droneD01] } "D-01" "Firefly" "FX-1"
        7 "tok-2").2.1.updated_at ≠ droneD01.updated_at := by
  decide

/-- C10 (amended): registering a drone id that already exists re-activates
the record, refreshes `last_seen`, and also refreshes the `auto_now`
timestamp `updated_at`; every other field — in particular `gui_token` and
the four derived topic names — is preserved, no new `Drone` row is created
(the table is the old one with only those three columns rewritten on the
matching row), and `created = false` is returned. -/
theorem c10_amended (db : DB) (did name model : String) (now : Nat)
    (tok : String) (e : Drone)
    (hfind : db.findDrone did = some e) (htop : e.telemetry_topic ≠ "") :
    (DroneService.register db did name model now tok).2.2 = false ∧
    (DroneService.register db did name model now tok).2.1 =
      { e with
          is_active := true
          last_seen := some now
          updated_at := now } ∧
    (DroneService.register db did name model now tok).1.drones =
      db.drones.map (fun d =>
        if d.drone_id == did then
          { d with
              is_active := true
              last_seen := some now
              updated_at := now }
        else d) ∧
    (DroneService.register db did name model now tok).1.drones.length =
      db.drones.length ∧
    (DroneService.register db did name model now tok).1.sessions =
      db.sessions ∧
    (DroneService.register db did name model now tok).1.logs = db.logs := by
  refine ⟨?_, ?_, ?_, ?_, ?_, ?_⟩ <;>
    simp [DroneService.register, hfind, Drone.save, htop]

/-- Witness for C10 (amended): re-registering D-01 returns the existing
record re-activated with both timestamps refreshed and creates no row. -/
theorem c10_witness :
    (DroneService.register { drones := [droneD01] } "D-01" "Firefly" "FX-1"
        7 "tok-2").2.2 = false ∧
    (DroneService.register { drones := [droneD01] } "D-01" "Firefly" "FX-1"
        7 "tok-2").2.1 =
      { droneD01 with
          is_active := true
          last_seen := some 7
          updated_at := 7 } ∧
    (DroneService.register { drones := [droneD01] } "D-01" "Firefly" "FX-1"
        7 "tok-2").1.drones.length = 1 := by
  have h := c10_amended { drones := [droneD01] } "D-01" "Firefly" "FX-1" 7
    "tok-2" droneD01 (by decide) (by decide)
  exact ⟨h.1, h.2.1, h.2.2.2.1⟩

/-- C7: processing a `STOP_SCAN` GUI command for a drone whose single
session S is active closes S (`is_active = false`, non-null `ended_at`),
sets the drone's cached status to hovering, publishes a `SCAN_STOPPED`
status event carrying S's final frame/fire/smoke counters (followed by the
`COMMAND_ACK` the handler always emits), and forwards a `STOP_SCAN`
command carrying S's session id to the drone's command queue. -/
theorem c7_stop_scan (drone : Drone) (S : ScanSession) (L : List LogEntry)
    (k : Nat) (ps : List (String × String)) (dispatch : Dispatch)
    (now : Nat) (newId : String)
    (h1 : S.droneId = drone.drone_id) (h2 : S.is_active = true) :
    (UnifiedConsumer.on_gui_command
        { drones := [drone], sessions := [S], logs := L, next_log_id := k }
        dispatch drone (some { command := some "STOP_SCAN", params := ps })
        now newId).2.2.2 = Ack.ack ∧
    (UnifiedConsumer.on_gui_command
        { drones := [drone], sessions := [S], logs := L, next_log_id := k }
        dispatch drone (some { command := some "STOP_SCAN", params := ps })
        now newId).1.sessions =
      [{ S with is_active := false, ended_at := some now }] ∧
    (UnifiedConsumer.on_gui_command
        { drones := [drone], sessions := [S], logs := L, next_log_id := k }
        dispatch drone (some { command := some "STOP_SCAN", params := ps })
        now newId).1.drones =
      [{ drone with
          last_status := DroneStatus.HOVERING
          last_seen := some now
          updated_at := now }] ∧
    (UnifiedConsumer.on_gui_command
        { drones := [drone], sessions := [S], logs := L, next_log_id := k }
        dispatch drone (some { command := some "STOP_SCAN", params := ps })
        now newId).2.2.1.gui =
      [publishGui drone.drone_id "status"
        (GuiPayload.SCAN_STOPPED now drone.drone_id S.session_id
          S.total_frames_processed S.fire_detections S.smoke_detections),
       publishGui drone.drone_id "status"
        (GuiPayload.COMMAND_ACK now drone.drone_id (some "STOP_SCAN")
          "sent")] ∧
    (UnifiedConsumer.on_gui_command
        { drones := [drone], sessions := [S], logs := L, next_log_id := k }
        dispatch drone (some { command := some "STOP_SCAN", params := ps })
        now newId).2.2.1.commands =
      [{ exchange := EXCHANGE_COMMANDS, routing_key := drone.command_topic,
         timestamp := now, drone_id := drone.drone_id,
         command := some "STOP_SCAN", session_id := some S.session_id,
         params := none, persistent := true }] := by
  refine ⟨?_, ?_, ?_, ?_, ?_⟩ <;>
    simp [UnifiedConsumer.on_gui_command, UnifiedConsumer.handle_stop_scan,
      DB.activeSessionFor, List.find?_cons, h1, h2, ScanService.stop,
      DroneService.update_status, LogService.log_drone_event, DB.createLog,
      DB.findDrone, DetectionService.stop_detection, dictErase,
      sendCommand]

/-- Witness for C7: stopping the concrete active session S1 of drone D-01
acks the command and closes S1 at time 9. -/
theorem c7_witness :
    (UnifiedConsumer.on_gui_command dbScan dispatchD01 droneD01
        (some { command := some "STOP_SCAN", params := [] }) 9
        "NX").2.2.2 = Ack.ack ∧
    (UnifiedConsumer.on_gui_command dbScan dispatchD01 droneD01
        (some { command := some "STOP_SCAN", params := [] }) 9
        "NX").1.sessions =
      [{ sessionS1 with is_active := false, ended_at := some 9 }] := by
  have h := c7_stop_scan droneD01 sessionS1 [] 0 [] dispatchD01 9 "NX"
    (by decide) (by decide)
  exact ⟨h.1, h.2.1⟩

/-- Witness for C9: a drone whose topics are set keeps all four topic
fields across a save. -/
theorem c9_witness :
    droneD01.telemetry_topic ≠ "" ∧
    ((droneD01.save 5).telemetry_topic = droneD01.telemetry_topic ∧
     (droneD01.save 5).command_topic = droneD01.command_topic ∧
     (droneD01.save 5).video_topic = droneD01.video_topic ∧
     (droneD01.save 5).alert_topic = droneD01.alert_topic) :=
  ⟨by decide, (c9_topics_pure_idempotent droneD01 5).2 (by decide)⟩

end DroneCommand
